import Mathlib

/-!
Verification of the bris-webapp regulatory ratio calculators.

The repository's `frontend/app/calculator/page.tsx` contains simplified
in-browser calculators (LeverageCalculator, LCRCalculator, NSFRCalculator,
MRELCalculator, IRRBBCalculator) whose `calculate` closures are embedded
below as pure functions over `Option ℚ` (a `none` input models a string
whose `parseFloat` is `NaN`; JavaScript numbers are modelled by exact
rationals).  The advanced calculator variant in the same file only renders
results of `calculateLeverageRatio` / `calculateLCR` / `calculateNSFR` /
`calculateMREL` / `calculateIRRBB`, whose implementations (the backend
engines) are not part of the provided sources; those engines are modelled
from the specification and are marked as such.
-/

/-- JavaScript `value || d` applied to a parsed float: `NaN` (modelled as
`none`) and `0` are falsy and are replaced by the default `d`; every other
number is kept.  `jsOr x 0` is the `parseFloat(s) || 0` idiom and
`jsOr x 1` is the `parseFloat(s) || 1` idiom of the source. -/
def jsOr (o : Option ℚ) (d : ℚ) : ℚ :=
  match o with
  | none => d
  | some q => if q = 0 then d else q

@[simp] theorem jsOr_none (d : ℚ) : jsOr none d = d := rfl

@[simp] theorem jsOr_some_zero (d : ℚ) : jsOr (some 0) d = d := by
  simp [jsOr]

theorem jsOr_some_ne (d : ℚ) (q : ℚ) (h : q ≠ 0) : jsOr (some q) d = q := by
  simp [jsOr, h]

namespace LeverageCalculator

/-- Result record set by `LeverageCalculator.calculate`
(page.tsx: `setResult({ ratio, compliant, buffer: ratio - 3.0 })`). -/
structure Result where
  ratio : ℚ
  compliant : Bool
  buffer : ℚ
deriving DecidableEq, Repr

/-- Embedding of `LeverageCalculator.calculate` (page.tsx lines 1559-1567):
`t1 = parseFloat(tier1); exp = parseFloat(exposure); if (t1 && exp) {
ratio = (t1 / exp) * 100; compliant = ratio >= 3.0; setResult(...) }`.
The truthiness guard means a `NaN` or zero input produces no result
(`none`). -/
def calculate (tier1 exposure : Option ℚ) : Option Result :=
  match tier1, exposure with
  | some t1, some ex =>
    if t1 ≠ 0 ∧ ex ≠ 0 then
      some { ratio := t1 / ex * 100
             compliant := decide (t1 / ex * 100 ≥ 3)
             buffer := t1 / ex * 100 - 3 }
    else none
  | _, _ => none

end LeverageCalculator

namespace LCRCalculator

/-- Result record set by `LCRCalculator.calculate`
(page.tsx: `setResult({ lcr, compliant, hqla, outflows })`). -/
structure Result where
  lcr : ℚ
  compliant : Bool
  hqla : ℚ
  outflows : ℚ
deriving DecidableEq, Repr

/-- Embedding of `LCRCalculator.calculate` (page.tsx lines 1677-1690):
inputs default to 0 via `parseFloat(x) || 0`;
`hqla = l1 + l2a * 0.85; outflows = rs * 0.05 + rls * 0.10;
lcr = outflows > 0 ? (hqla / outflows) * 100 : 0; compliant = lcr >= 100`. -/
def calculate (hqlaL1 hqlaL2a retailStable retailLessStable : Option ℚ) : Result :=
  let l1 := jsOr hqlaL1 0
  let l2a := jsOr hqlaL2a 0
  let rs := jsOr retailStable 0
  let rls := jsOr retailLessStable 0
  let hqla := l1 + l2a * (85/100)
  let outflows := rs * (5/100) + rls * (10/100)
  let lcr := if outflows > 0 then hqla / outflows * 100 else 0
  { lcr := lcr
    compliant := decide (lcr ≥ 100)
    hqla := hqla
    outflows := outflows }

end LCRCalculator

namespace NSFRCalculator

/-- Result record set by `NSFRCalculator.calculate`
(page.tsx: `setResult({ nsfr, compliant, asf, rsf })`). -/
structure Result where
  nsfr : ℚ
  compliant : Bool
  asf : ℚ
  rsf : ℚ
deriving DecidableEq, Repr

/-- Embedding of `NSFRCalculator.calculate` (page.tsx lines 1827-1840):
inputs default to 0 via `parseFloat(x) || 0`;
`asf = clt * 1.0 + sr * 0.95; rsf = l1 * 0.05 + mtg * 0.65;
nsfr = rsf > 0 ? (asf / rsf) * 100 : 0; compliant = nsfr >= 100`. -/
def calculate (capitalLT stableRetail hqlaL1 mortgages : Option ℚ) : Result :=
  let clt := jsOr capitalLT 0
  let sr := jsOr stableRetail 0
  let l1 := jsOr hqlaL1 0
  let mtg := jsOr mortgages 0
  let asf := clt * 1 + sr * (95/100)
  let rsf := l1 * (5/100) + mtg * (65/100)
  let nsfr := if rsf > 0 then asf / rsf * 100 else 0
  { nsfr := nsfr
    compliant := decide (nsfr ≥ 100)
    asf := asf
    rsf := rsf }

end NSFRCalculator

namespace MRELCalculator

/-- Result record set by `MRELCalculator.calculate` (page.tsx:
`setResult({ mrelRatio, compliant, totalMREL, requirement, buffer })`). -/
structure Result where
  mrelRatio : ℚ
  compliant : Bool
  totalMREL : ℚ
  requirement : ℚ
  buffer : ℚ
deriving DecidableEq, Repr

/-- Embedding of `MRELCalculator.calculate` (page.tsx lines 1979-1992):
the four capital inputs default to 0 via `parseFloat(x) || 0`, while the
RWA denominator uses `parseFloat(rwa) || 1`, so an RWA field that parses
to `0` or `NaN` is replaced by `1`.
`totalMREL = c1 + a1 + t2 + snp; mrelRatio = (totalMREL / r) * 100;
requirement = 18; compliant = mrelRatio >= requirement`. -/
def calculate (cet1 at1 tier2 seniorNP rwa : Option ℚ) : Result :=
  let c1 := jsOr cet1 0
  let a1 := jsOr at1 0
  let t2 := jsOr tier2 0
  let snp := jsOr seniorNP 0
  let r := jsOr rwa 1
  let totalMREL := c1 + a1 + t2 + snp
  let mrelRatio := totalMREL / r * 100
  { mrelRatio := mrelRatio
    compliant := decide (mrelRatio ≥ 18)
    totalMREL := totalMREL
    requirement := 18
    buffer := mrelRatio - 18 }

end MRELCalculator

namespace IRRBBCalculator

/-- Result record set by `IRRBBCalculator.calculate` (page.tsx:
`setResult({ deltaEVE, deltaPercent, compliant, threshold })`). -/
structure Result where
  deltaEVE : ℚ
  deltaPercent : ℚ
  compliant : Bool
  threshold : ℚ
deriving DecidableEq, Repr

/-- Parallel +200bp shock of the simplified IRRBB calculator
(page.tsx: `const shock = 0.02`). -/
def shock : ℚ := 2/100

/-- Fixed bucket duration for the 1Y gap (page.tsx: `duration1y = 1.0`). -/
def duration1y : ℚ := 1

/-- Fixed bucket duration for the 5Y gap (page.tsx: `duration5y = 4.5`). -/
def duration5y : ℚ := 9/2

/-- Fixed bucket duration for the 10Y gap (page.tsx: `duration10y = 8.0`). -/
def duration10y : ℚ := 8

/-- Economic-value-of-equity change of `IRRBBCalculator.calculate`
(page.tsx line 2151):
`deltaEVE = -(g1 * duration1y * shock + g5 * duration5y * shock +
g10 * duration10y * shock)`. -/
def deltaEVE (g1 g5 g10 : ℚ) : ℚ :=
  -(g1 * duration1y * shock + g5 * duration5y * shock + g10 * duration10y * shock)

/-- Embedding of `IRRBBCalculator.calculate` (page.tsx lines 2139-2156):
the three gaps default to 0 via `parseFloat(x) || 0` and Tier 1 capital
defaults to 1 via `parseFloat(tier1) || 1`;
`deltaPercent = (Math.abs(deltaEVE) / t1) * 100; threshold = 15;
compliant = deltaPercent <= threshold`. -/
def calculate (gap1y gap5y gap10y tier1 : Option ℚ) : Result :=
  let g1 := jsOr gap1y 0
  let g5 := jsOr gap5y 0
  let g10 := jsOr gap10y 0
  let t1 := jsOr tier1 1
  let dEVE := deltaEVE g1 g5 g10
  let deltaPercent := |dEVE| / t1 * 100
  { deltaEVE := dEVE
    deltaPercent := deltaPercent
    compliant := decide (deltaPercent ≤ 15)
    threshold := 15 }

end IRRBBCalculator

/-- Modelled from the spec: error taxonomy of section 7; only
`DivisionByZeroError` is needed by the engines modelled here. -/
inductive CalcError where
  | DivisionByZeroError
  | InvalidRangeError
deriving DecidableEq, Repr

namespace LeverageRatioEngine

/-- Modelled from the spec: `LeverageInput` of section 3; the advanced
leverage engine (`calculateLeverageRatio`, invoked at page.tsx line 616)
is not part of the provided sources. -/
structure LeverageInput where
  tier1_capital : ℚ
  on_balance_exposures : ℚ
  derivative_exposures : ℚ
  sft_exposures : ℚ
  off_balance_items : ℚ
  ccf_off_balance : ℚ
deriving DecidableEq, Repr

/-- Modelled from the spec: result of `LeverageRatioEngine.calculate`
(section 4.2). -/
structure LeverageResult where
  leverage_ratio : ℚ
  total_exposure_measure : ℚ
  compliant : Bool
deriving DecidableEq, Repr

/-- Modelled from the spec (section 4.2): `total_exposure_measure =
on_balance + derivative + sft + off_balance_items * ccf_off_balance`. -/
def totalExposure (i : LeverageInput) : ℚ :=
  i.on_balance_exposures + i.derivative_exposures + i.sft_exposures +
    i.off_balance_items * i.ccf_off_balance

/-- Modelled from the spec (section 4.2): `leverage_ratio = tier1_capital /
total_exposure_measure`, `compliant = ratio ≥ 0.03`, failing with
`DivisionByZeroError` when the total exposure measure is zero.  The
implementation of the advanced engine is not under the provided sources;
only its UI caller is. -/
def calculate (i : LeverageInput) : Except CalcError LeverageResult :=
  if totalExposure i = 0 then .error .DivisionByZeroError
  else
    .ok { leverage_ratio := i.tier1_capital / totalExposure i
          total_exposure_measure := totalExposure i
          compliant := decide (i.tier1_capital / totalExposure i ≥ 3/100) }

end LeverageRatioEngine

namespace NSFREngine

/-- Modelled from the spec: `NSFRInput` of section 3; the advanced NSFR
engine (`calculateNSFR`, invoked at page.tsx line 806) is not part of the
provided sources, only its input form and result rendering are. -/
structure NSFRInput where
  capital_long_term : ℚ
  stable_retail_deposits : ℚ
  less_stable_deposits : ℚ
  wholesale_short_term : ℚ
  cash_reserves : ℚ
  corporate_loans : ℚ
  mortgages : ℚ
  other_loans : ℚ
deriving DecidableEq, Repr

/-- Modelled from the spec: result of `NSFREngine.calculate`
(section 4.4). -/
structure NSFRResult where
  asf : ℚ
  rsf : ℚ
  nsfr : ℚ
  compliant : Bool
deriving DecidableEq, Repr

/-- Modelled from the spec (section 4.4): `asf = capital_long_term*1.0 +
stable_retail_deposits*0.95 + less_stable_deposits*0.90 +
wholesale_short_term*0.50`. -/
def asf (i : NSFRInput) : ℚ :=
  i.capital_long_term * 1 + i.stable_retail_deposits * (95/100) +
    i.less_stable_deposits * (90/100) + i.wholesale_short_term * (50/100)

/-- Modelled from the spec (section 4.4): `rsf = cash_reserves*0.05 +
corporate_loans*0.85 + mortgages*0.65 + other_loans*1.00`. -/
def rsf (i : NSFRInput) : ℚ :=
  i.cash_reserves * (5/100) + i.corporate_loans * (85/100) +
    i.mortgages * (65/100) + i.other_loans * 1

/-- Modelled from the spec (section 4.4): `nsfr = asf/rsf`,
`compliant = nsfr ≥ 1.00`, `DivisionByZeroError` when `rsf = 0`. -/
def calculate (i : NSFRInput) : Except CalcError NSFRResult :=
  if rsf i = 0 then .error .DivisionByZeroError
  else
    .ok { asf := asf i
          rsf := rsf i
          nsfr := asf i / rsf i
          compliant := decide (asf i / rsf i ≥ 1) }

end NSFREngine

namespace MRELEngine

/-- Modelled from the spec: `MRELInput` of section 3; the advanced MREL
engine (`calculateMREL`, invoked at page.tsx line 874) is not part of the
provided sources, only its input form and result rendering (fields
`compliant_rwa`, `compliant_lem`, `compliant_subordination`,
`overall_compliant`) are. -/
structure MRELInput where
  cet1 : ℚ
  at1 : ℚ
  tier2 : ℚ
  senior_non_preferred : ℚ
  total_rwa : ℚ
  leverage_exposure : ℚ
deriving DecidableEq, Repr

/-- Modelled from the spec: result of `MRELEngine.calculate`
(section 4.5). -/
structure MRELResult where
  total_mrel : ℚ
  mrel_ratio_rwa : ℚ
  mrel_ratio_lem : ℚ
  subordination_ratio : ℚ
  compliant_rwa : Bool
  compliant_lem : Bool
  compliant_subordination : Bool
  overall_compliant : Bool
deriving DecidableEq, Repr

/-- Modelled from the spec (section 4.5): the typical RWA-based MREL
requirement, 18% of RWA (configurable in the spec; the typical value is
fixed here, matching the in-browser calculator's constant). -/
def requirement_rwa : ℚ := 18/100

/-- Modelled from the spec (section 4.5): `total_mrel =
cet1+at1+tier2+senior_non_preferred`;
`mrel_ratio_rwa = total_mrel/total_rwa`, compliant against the 18% RWA
requirement; `mrel_ratio_lem = total_mrel/leverage_exposure`, compliant
against a leverage-exposure-based minimum `req_lem`;
`subordination_ratio` over RWA (all the input instruments are
subordinated, the input has no senior-preferred-eligible field), compliant
against a subordination minimum `req_sub`; `overall_compliant` is the AND
of the three sub-checks; `DivisionByZeroError` on zero denominators. -/
def calculate (req_lem req_sub : ℚ) (i : MRELInput) :
    Except CalcError MRELResult :=
  if i.total_rwa = 0 ∨ i.leverage_exposure = 0 then
    .error .DivisionByZeroError
  else
    let total_mrel := i.cet1 + i.at1 + i.tier2 + i.senior_non_preferred
    let ratio_rwa := total_mrel / i.total_rwa
    let ratio_lem := total_mrel / i.leverage_exposure
    let sub_ratio := total_mrel / i.total_rwa
    let c_rwa := decide (ratio_rwa ≥ requirement_rwa)
    let c_lem := decide (ratio_lem ≥ req_lem)
    let c_sub := decide (sub_ratio ≥ req_sub)
    .ok { total_mrel := total_mrel
          mrel_ratio_rwa := ratio_rwa
          mrel_ratio_lem := ratio_lem
          subordination_ratio := sub_ratio
          compliant_rwa := c_rwa
          compliant_lem := c_lem
          compliant_subordination := c_sub
          overall_compliant := c_rwa && c_lem && c_sub }

end MRELEngine

namespace LCREngine

/-- Modelled from the spec: the HQLA adjustment of `LCREngine`
(section 4.3), whose implementation (`calculateLCR`, invoked at page.tsx
line 714) is not part of the provided sources, only its input form and the
rendering of `hqla_adjusted` and `caps_applied` are. -/
structure HQLAResult where
  hqla_adjusted : ℚ
  l2b_after_cap : ℚ
  l2_after_cap : ℚ
  caps_applied : List String
deriving DecidableEq, Repr

/-- Modelled from the spec (section 4.3): the 85% haircut weight on
Level 2A HQLA, `L2A*0.85`. -/
def weightedL2A (l2a : ℚ) : ℚ := l2a * (85/100)

/-- Modelled from the spec (section 4.3): the 50% haircut weight on
Level 2B HQLA, `L2B*0.50`. -/
def weightedL2B (l2b : ℚ) : ℚ := l2b * (50/100)

/-- Modelled from the spec (section 4.3): the Level 2B cap in the standard
Basel haircut form — the weighted Level 2B holding may be at most 15/85 of
Level 1 plus weighted Level 2A, which makes it exactly 15% of the adjusted
total it enters. -/
def l2bCap (l1 l2a : ℚ) : ℚ := (15/85) * (l1 + weightedL2A l2a)

/-- Modelled from the spec (section 4.3): the weighted Level 2B holding
after the 15% cap. -/
def l2bAfterCap (l1 l2a l2b : ℚ) : ℚ := min (weightedL2B l2b) (l2bCap l1 l2a)

/-- Modelled from the spec (section 4.3): the combined Level 2 cap in the
standard Basel haircut form — total weighted Level 2 may be at most 40/60
of Level 1, which makes it exactly 40% of the final adjusted total. -/
def l2Cap (l1 : ℚ) : ℚ := (40/60) * l1

/-- Modelled from the spec (section 4.3): the combined weighted Level 2
holding (capped Level 2B plus weighted Level 2A) after the 40% cap. -/
def l2AfterCap (l1 l2a l2b : ℚ) : ℚ :=
  min (weightedL2A l2a + l2bAfterCap l1 l2a l2b) (l2Cap l1)

/-- Modelled from the spec (section 4.3): `hqla_adjusted = L1 + L2A*0.85 +
L2B*0.50 (capped: L2B ≤ 15% of total adjusted HQLA, L2 total ≤ 40% of
total adjusted HQLA — caps recorded in caps_applied)`; each binding cap
appends a note to `caps_applied`. -/
def adjustHQLA (l1 l2a l2b : ℚ) : HQLAResult :=
  { hqla_adjusted := l1 + l2AfterCap l1 l2a l2b
    l2b_after_cap := l2bAfterCap l1 l2a l2b
    l2_after_cap := l2AfterCap l1 l2a l2b
    caps_applied :=
      (if weightedL2B l2b > l2bCap l1 l2a then
        ["L2B capped at 15 percent of adjusted HQLA"] else []) ++
      (if weightedL2A l2a + l2bAfterCap l1 l2a l2b > l2Cap l1 then
        ["L2 capped at 40 percent of adjusted HQLA"] else []) }

end LCREngine

/-! Claim theorems. -/

/-- C6: for both the in-browser LCR and NSFR calculators the `compliant`
flag is true exactly when the computed ratio (stored in percent form) is
at least 100, i.e. at least 1.0; in particular a ratio of exactly 100
(100%) is reported compliant. -/
theorem lcr_nsfr_compliance_boundary :
    (∀ a b c d : Option ℚ,
      ((LCRCalculator.calculate a b c d).compliant = true ↔
        (LCRCalculator.calculate a b c d).lcr ≥ 100)) ∧
    (∀ a b c d : Option ℚ,
      ((NSFRCalculator.calculate a b c d).compliant = true ↔
        (NSFRCalculator.calculate a b c d).nsfr ≥ 100)) ∧
    (∀ a b c d : Option ℚ, (LCRCalculator.calculate a b c d).lcr = 100 →
      (LCRCalculator.calculate a b c d).compliant = true) ∧
    (∀ a b c d : Option ℚ, (NSFRCalculator.calculate a b c d).nsfr = 100 →
      (NSFRCalculator.calculate a b c d).compliant = true) := by
  refine ⟨?_, ?_, ?_, ?_⟩ <;> intro a b c d <;>
    simp [LCRCalculator.calculate, NSFRCalculator.calculate, decide_eq_true_eq]
  · intro h
    rw [h]
  · intro h
    rw [h]

/-- C6 witness: an LCR input with HQLA equal to outflows gives a ratio of
exactly 100 and is compliant, and similarly for NSFR. -/
theorem lcr_nsfr_compliance_boundary_witness :
    (LCRCalculator.calculate (some 5) (some 0) (some 100) (some 0)).lcr = 100 ∧
    (LCRCalculator.calculate (some 5) (some 0) (some 100) (some 0)).compliant = true ∧
    (NSFRCalculator.calculate (some 65) (some 0) (some 0) (some 100)).nsfr = 100 ∧
    (NSFRCalculator.calculate (some 65) (some 0) (some 0) (some 100)).compliant = true := by
  refine ⟨by norm_num [LCRCalculator.calculate, jsOr], ?_,
    by norm_num [NSFRCalculator.calculate, jsOr], ?_⟩
  · exact lcr_nsfr_compliance_boundary.2.2.1 (some 5) (some 0) (some 100) (some 0)
      (by norm_num [LCRCalculator.calculate, jsOr])
  · exact lcr_nsfr_compliance_boundary.2.2.2 (some 65) (some 0) (some 0) (some 100)
      (by norm_num [NSFRCalculator.calculate, jsOr])

/-- C7: for the in-browser IRRBB calculator with a positive Tier 1 capital
input, the single implemented scenario breaches the outlier threshold
exactly when `deltaPercent` is strictly greater than 15 (15% of Tier 1),
the `compliant` flag holds exactly when the scenario does not breach, and
an input with `deltaPercent` exactly 15 is compliant. -/
theorem irrbb_outlier_threshold (g1 g5 g10 : Option ℚ) (v : ℚ) (hv : 0 < v) :
    ((IRRBBCalculator.calculate g1 g5 g10 (some v)).compliant = true ↔
      ¬ ((IRRBBCalculator.calculate g1 g5 g10 (some v)).deltaPercent > 15)) ∧
    ((IRRBBCalculator.calculate g1 g5 g10 (some v)).deltaPercent = 15 →
      (IRRBBCalculator.calculate g1 g5 g10 (some v)).compliant = true) := by
  constructor
  · simp [IRRBBCalculator.calculate, decide_eq_true_eq, not_lt]
  · intro h
    simp only [IRRBBCalculator.calculate, decide_eq_true_eq] at h ⊢
    rw [h]

/-- C7 witness: gaps of 750/0/0 with Tier 1 capital 100 give a delta of
exactly 15% of Tier 1, which is compliant. -/
theorem irrbb_outlier_threshold_witness :
    (0:ℚ) < 100 ∧
    (IRRBBCalculator.calculate (some 750) (some 0) (some 0) (some 100)).deltaPercent = 15 ∧
    (IRRBBCalculator.calculate (some 750) (some 0) (some 0) (some 100)).compliant = true := by
  have h15 : (IRRBBCalculator.calculate (some 750) (some 0) (some 0)
      (some 100)).deltaPercent = 15 := by
    norm_num [IRRBBCalculator.calculate, IRRBBCalculator.deltaEVE,
      IRRBBCalculator.duration1y, IRRBBCalculator.duration5y,
      IRRBBCalculator.duration10y, IRRBBCalculator.shock, jsOr]
  exact ⟨by norm_num,  h15,
    (irrbb_outlier_threshold (some 750) (some 0) (some 0) 100 (by norm_num)).2 h15⟩

/-- C8: the in-browser IRRBB economic-value change is the negated sum over
the three maturity buckets of gap times the bucket's fixed duration times
the 200bp shock; it is jointly linear in the gap vector, and an input with
every gap zero yields a delta of 0 and a compliant result. -/
theorem irrbb_delta_eve_linearity :
    (∀ g1 g5 g10 : ℚ, IRRBBCalculator.deltaEVE g1 g5 g10 =
      -(g1 * IRRBBCalculator.duration1y * IRRBBCalculator.shock +
        g5 * IRRBBCalculator.duration5y * IRRBBCalculator.shock +
        g10 * IRRBBCalculator.duration10y * IRRBBCalculator.shock)) ∧
    (∀ c x1 x5 x10 y1 y5 y10 : ℚ,
      IRRBBCalculator.deltaEVE (c * x1 + y1) (c * x5 + y5) (c * x10 + y10) =
        c * IRRBBCalculator.deltaEVE x1 x5 x10 +
          IRRBBCalculator.deltaEVE y1 y5 y10) ∧
    (∀ t1 : Option ℚ,
      (IRRBBCalculator.calculate (some 0) (some 0) (some 0) t1).deltaEVE = 0 ∧
      (IRRBBCalculator.calculate (some 0) (some 0) (some 0) t1).compliant = true) := by
  refine ⟨fun g1 g5 g10 => rfl, fun c x1 x5 x10 y1 y5 y10 => by
    simp only [IRRBBCalculator.deltaEVE]
    ring, fun t1 => ?_⟩
  constructor
  · simp [IRRBBCalculator.calculate, IRRBBCalculator.deltaEVE]
  · simp [IRRBBCalculator.calculate, IRRBBCalculator.deltaEVE]

/-- C9: negating every gap input of the in-browser IRRBB calculator (with
a positive Tier 1 capital input) negates `deltaEVE` but leaves
`deltaPercent` and the `compliant` flag unchanged, since compliance only
depends on the absolute value of `deltaEVE`. -/
theorem irrbb_gap_negation (g1 g5 g10 v : ℚ) (hv : 0 < v) :
    ((IRRBBCalculator.calculate (some (-g1)) (some (-g5)) (some (-g10)) (some v)).deltaEVE =
      -((IRRBBCalculator.calculate (some g1) (some g5) (some g10) (some v)).deltaEVE)) ∧
    ((IRRBBCalculator.calculate (some (-g1)) (some (-g5)) (some (-g10)) (some v)).deltaPercent =
      (IRRBBCalculator.calculate (some g1) (some g5) (some g10) (some v)).deltaPercent) ∧
    ((IRRBBCalculator.calculate (some (-g1)) (some (-g5)) (some (-g10)) (some v)).compliant =
      (IRRBBCalculator.calculate (some g1) (some g5) (some g10) (some v)).compliant) := by
  have hneg : ∀ q : ℚ, jsOr (some (-q)) 0 = -(jsOr (some q) 0) := by
    intro q
    by_cases hq : q = 0
    · simp [hq]
    · rw [jsOr_some_ne _ _ hq, jsOr_some_ne _ _ (neg_ne_zero.mpr hq)]
  have hE : (IRRBBCalculator.calculate (some (-g1)) (some (-g5)) (some (-g10))
      (some v)).deltaEVE =
      -((IRRBBCalculator.calculate (some g1) (some g5) (some g10) (some v)).deltaEVE) := by
    simp only [IRRBBCalculator.calculate, IRRBBCalculator.deltaEVE, hneg]
    ring
  have hP : (IRRBBCalculator.calculate (some (-g1)) (some (-g5)) (some (-g10))
      (some v)).deltaPercent =
      (IRRBBCalculator.calculate (some g1) (some g5) (some g10) (some v)).deltaPercent := by
    simp only [IRRBBCalculator.calculate] at hE ⊢
    rw [hE, abs_neg]
  refine ⟨hE, hP, ?_⟩
  simp only [IRRBBCalculator.calculate] at hP ⊢
  rw [hP]

/-- C9 witness: instantiation at gaps 1/2/3 and Tier 1 capital 10. -/
theorem irrbb_gap_negation_witness :
    ((IRRBBCalculator.calculate (some (-1)) (some (-2)) (some (-3)) (some 10)).deltaEVE =
      -((IRRBBCalculator.calculate (some 1) (some 2) (some 3) (some 10)).deltaEVE)) ∧
    ((IRRBBCalculator.calculate (some (-1)) (some (-2)) (some (-3)) (some 10)).deltaPercent =
      (IRRBBCalculator.calculate (some 1) (some 2) (some 3) (some 10)).deltaPercent) ∧
    ((IRRBBCalculator.calculate (some (-1)) (some (-2)) (some (-3)) (some 10)).compliant =
      (IRRBBCalculator.calculate (some 1) (some 2) (some 3) (some 10)).compliant) := by
  have h := irrbb_gap_negation 1 2 3 10 (by norm_num)
  simpa using h

/-- C10: when the MREL RWA field parses to `0` or is not a number, the
in-browser MREL calculator substitutes `1` for the denominator and returns
`mrelRatio = (cet1 + at1 + tier2 + senior_non_preferred) * 100`; no error
is raised and the result is an ordinary rational, never an infinity or a
NaN. -/
theorem mrel_zero_rwa_substitution (c1 a1 t2 snp rwa : Option ℚ)
    (h : rwa = none ∨ rwa = some 0) :
    (MRELCalculator.calculate c1 a1 t2 snp rwa).mrelRatio =
      (jsOr c1 0 + jsOr a1 0 + jsOr t2 0 + jsOr snp 0) * 100 := by
  rcases h with h | h <;> subst h <;>
    simp [MRELCalculator.calculate]

/-- C10 witness: concrete MREL inputs 2/3/0/NaN with RWA 0 produce the
ratio (2 + 3 + 0 + 0) * 100 = 500. -/
theorem mrel_zero_rwa_substitution_witness :
    (MRELCalculator.calculate (some 2) (some 3) (some 0) none (some 0)).mrelRatio = 500 := by
  have h := mrel_zero_rwa_substitution (some 2) (some 3) (some 0) none (some 0) (Or.inr rfl)
  rw [h]
  norm_num [jsOr]

/-- C5: for every leverage input with nonzero total exposure measure, the
engine's `leverage_ratio` is Tier 1 capital divided by the total exposure
measure (the sum of on-balance, derivative and SFT exposures plus
off-balance items times the CCF) and `compliant` holds exactly when the
ratio is at least 0.03; the in-browser variant, which takes the total
exposure directly, returns the same ratio in percent with compliance at
3. -/
theorem leverage_ratio_spec :
    (∀ i : LeverageRatioEngine.LeverageInput,
      ∀ r : LeverageRatioEngine.LeverageResult,
      LeverageRatioEngine.calculate i = .ok r →
        r.total_exposure_measure = i.on_balance_exposures + i.derivative_exposures +
            i.sft_exposures + i.off_balance_items * i.ccf_off_balance ∧
        r.leverage_ratio = i.tier1_capital / r.total_exposure_measure ∧
        (r.compliant = true ↔ r.leverage_ratio ≥ 3/100)) ∧
    (∀ t1 e : ℚ, t1 ≠ 0 → e ≠ 0 →
      ∃ r : LeverageCalculator.Result,
        LeverageCalculator.calculate (some t1) (some e) = some r ∧
        r.ratio = t1 / e * 100 ∧ (r.compliant = true ↔ r.ratio ≥ 3)) := by
  constructor
  · intro i r h
    unfold LeverageRatioEngine.calculate at h
    split at h
    · exact absurd h (by simp)
    · rw [Except.ok.injEq] at h
      subst h
      refine ⟨rfl, rfl, ?_⟩
      simp [LeverageRatioEngine.totalExposure, decide_eq_true_eq]
  · intro t1 e ht he
    have hc : LeverageCalculator.calculate (some t1) (some e) =
        some { ratio := t1 / e * 100, compliant := decide (t1 / e * 100 ≥ 3),
               buffer := t1 / e * 100 - 3 } := by
      simp [LeverageCalculator.calculate, ht, he]
    exact ⟨_, hc, rfl, by simp [decide_eq_true_eq]⟩

/-- C5 witness: the specification's worked example — Tier 1 capital 50000
with exposures 1400000 + 50000 + 30000 + 100000·0.5 gives a total exposure
measure of 1530000, a leverage ratio of 50000/1530000 = 5/153 ≈ 3.27%
(between 3.26% and 3.28%), which is compliant; the in-browser variant at
the same capital and total gives the same ratio in percent. -/
theorem leverage_ratio_spec_witness :
    LeverageRatioEngine.calculate
        { tier1_capital := 50000, on_balance_exposures := 1400000,
          derivative_exposures := 50000, sft_exposures := 30000,
          off_balance_items := 100000, ccf_off_balance := 1/2 } =
      .ok { leverage_ratio := 5/153, total_exposure_measure := 1530000,
            compliant := true } ∧
    ((5:ℚ)/153 ≥ 3/100) ∧ ((326:ℚ)/10000 < 5/153 ∧ (5:ℚ)/153 < 328/10000) ∧
    (∃ r : LeverageCalculator.Result,
      LeverageCalculator.calculate (some 50000) (some 1530000) = some r ∧
      r.ratio = 50000 / 1530000 * 100 ∧ (r.compliant = true ↔ r.ratio ≥ 3)) := by
  have hok : LeverageRatioEngine.calculate
      { tier1_capital := 50000, on_balance_exposures := 1400000,
        derivative_exposures := 50000, sft_exposures := 30000,
        off_balance_items := 100000, ccf_off_balance := 1/2 } =
      .ok { leverage_ratio := 5/153, total_exposure_measure := 1530000,
            compliant := true } := by
    norm_num [LeverageRatioEngine.calculate, LeverageRatioEngine.totalExposure]
  have hspec := leverage_ratio_spec.2 50000 1530000 (by norm_num) (by norm_num)
  exact ⟨hok, by norm_num, ⟨by norm_num, by norm_num⟩, hspec⟩

/-- C3: for every NSFR input accepted by the engine, the available stable
funding is `capital_long_term*1.0 + stable_retail_deposits*0.95 +
less_stable_deposits*0.90 + wholesale_short_term*0.50`, the required
stable funding is `cash_reserves*0.05 + corporate_loans*0.85 +
mortgages*0.65 + other_loans*1.00`, the returned ratio is `asf/rsf` and
`compliant` holds exactly when the ratio is at least 1.00. -/
theorem nsfr_engine_spec (i : NSFREngine.NSFRInput) (r : NSFREngine.NSFRResult)
    (h : NSFREngine.calculate i = .ok r) :
    r.asf = i.capital_long_term * 1 + i.stable_retail_deposits * (95/100) +
        i.less_stable_deposits * (90/100) + i.wholesale_short_term * (50/100) ∧
    r.rsf = i.cash_reserves * (5/100) + i.corporate_loans * (85/100) +
        i.mortgages * (65/100) + i.other_loans * 1 ∧
    r.nsfr = r.asf / r.rsf ∧
    (r.compliant = true ↔ r.nsfr ≥ 1) := by
  unfold NSFREngine.calculate at h
  split at h
  · exact absurd h (by simp)
  · rw [Except.ok.injEq] at h
    subst h
    exact ⟨rfl, rfl, rfl, by simp [decide_eq_true_eq]⟩

/-- C3 witness: with every input 100 the engine returns asf = 335,
rsf = 255, nsfr = 67/51 ≥ 1 and a compliant result. -/
theorem nsfr_engine_spec_witness :
    NSFREngine.calculate
        { capital_long_term := 100, stable_retail_deposits := 100,
          less_stable_deposits := 100, wholesale_short_term := 100,
          cash_reserves := 100, corporate_loans := 100,
          mortgages := 100, other_loans := 100 } =
      .ok { asf := 335, rsf := 255, nsfr := 67/51, compliant := true } ∧
    ((335:ℚ) = 100 * 1 + 100 * (95/100) + 100 * (90/100) + 100 * (50/100) ∧
      (255:ℚ) = 100 * (5/100) + 100 * (85/100) + 100 * (65/100) + 100 * 1 ∧
      (67:ℚ)/51 = 335 / 255 ∧ (true = true ↔ (67:ℚ)/51 ≥ 1)) := by
  have hok : NSFREngine.calculate
      { capital_long_term := 100, stable_retail_deposits := 100,
        less_stable_deposits := 100, wholesale_short_term := 100,
        cash_reserves := 100, corporate_loans := 100,
        mortgages := 100, other_loans := 100 } =
      .ok { asf := 335, rsf := 255, nsfr := 67/51, compliant := true } := by
    norm_num [NSFREngine.calculate, NSFREngine.asf, NSFREngine.rsf]
  exact ⟨hok, nsfr_engine_spec _ _ hok⟩

/-- C2: for every MREL input accepted by the engine (and any configured
leverage-exposure and subordination minima), `total_mrel` is the sum of
CET1, AT1, Tier 2 and senior non-preferred instruments, `mrel_ratio_rwa`
is `total_mrel / total_rwa` with the RWA sub-check compliant exactly at
18% of RWA or more, and `overall_compliant` holds exactly when all three
sub-checks (RWA ratio, leverage-exposure ratio, subordination) hold. -/
theorem mrel_engine_spec (req_lem req_sub : ℚ) (i : MRELEngine.MRELInput)
    (r : MRELEngine.MRELResult)
    (h : MRELEngine.calculate req_lem req_sub i = .ok r) :
    r.total_mrel = i.cet1 + i.at1 + i.tier2 + i.senior_non_preferred ∧
    r.mrel_ratio_rwa = r.total_mrel / i.total_rwa ∧
    (r.compliant_rwa = true ↔ r.mrel_ratio_rwa ≥ 18/100) ∧
    (r.overall_compliant = true ↔
      (r.compliant_rwa = true ∧ r.compliant_lem = true ∧
        r.compliant_subordination = true)) := by
  unfold MRELEngine.calculate at h
  split at h
  · exact absurd h (by simp)
  · rw [Except.ok.injEq] at h
    subst h
    refine ⟨rfl, rfl, ?_, ?_⟩
    · simp [MRELEngine.requirement_rwa, decide_eq_true_eq]
    · simp [Bool.and_eq_true, and_assoc]

/-- C2 witness: with minima 6% (leverage exposure) and 13% (subordination)
and instruments 60/20/20/20 over RWA 500 and leverage exposure 2000, all
three sub-checks pass and the engine reports overall compliance. -/
theorem mrel_engine_spec_witness :
    MRELEngine.calculate (6/100) (13/100)
        { cet1 := 60, at1 := 20, tier2 := 20, senior_non_preferred := 20,
          total_rwa := 500, leverage_exposure := 2000 } =
      .ok { total_mrel := 120, mrel_ratio_rwa := 6/25, mrel_ratio_lem := 3/50,
            subordination_ratio := 6/25, compliant_rwa := true,
            compliant_lem := true, compliant_subordination := true,
            overall_compliant := true } ∧
    ((120:ℚ) = 60 + 20 + 20 + 20 ∧ (6:ℚ)/25 = 120 / 500 ∧
      (true = true ↔ (6:ℚ)/25 ≥ 18/100) ∧
      (true = true ↔ (true = true ∧ true = true ∧ true = true))) := by
  have hok : MRELEngine.calculate (6/100) (13/100)
      { cet1 := 60, at1 := 20, tier2 := 20, senior_non_preferred := 20,
        total_rwa := 500, leverage_exposure := 2000 } =
      .ok { total_mrel := 120, mrel_ratio_rwa := 6/25, mrel_ratio_lem := 3/50,
            subordination_ratio := 6/25, compliant_rwa := true,
            compliant_lem := true, compliant_subordination := true,
            overall_compliant := true } := by
    norm_num [MRELEngine.calculate, MRELEngine.requirement_rwa]
  exact ⟨hok, mrel_engine_spec (6/100) (13/100) _ _ hok⟩

/-- C1 counterexample: at an input whose LCR denominator (net outflows) is
zero, the in-browser LCR calculator raises no error and silently returns
the substituted ratio 0 with a full numeric result record — refuting the
claim that a zero denominator always raises `DivisionByZeroError` and
never yields a silently substituted numeric result. -/
theorem lcr_zero_outflows_silent_zero :
    LCRCalculator.calculate (some 100) (some 0) (some 0) (some 0) =
      { lcr := 0, compliant := false, hqla := 100, outflows := 0 } := by
  norm_num [LCRCalculator.calculate, jsOr]

/-- C1 amended: none of the in-browser calculators raises an error on a
zero denominator, and none returns an infinity or NaN; instead the
leverage calculator produces no result at all (its truthiness guard
rejects a zero exposure), the LCR and NSFR calculators return the
substituted ratio 0 (reported non-compliant), and the MREL calculator
substitutes 1 for a zero RWA denominator. -/
theorem calculators_zero_denominator_behavior :
    (∀ t1 : Option ℚ, LeverageCalculator.calculate t1 (some 0) = none) ∧
    (∀ a b c d : Option ℚ, jsOr c 0 * (5/100) + jsOr d 0 * (10/100) = 0 →
      (LCRCalculator.calculate a b c d).lcr = 0 ∧
      (LCRCalculator.calculate a b c d).compliant = false) ∧
    (∀ a b c d : Option ℚ, jsOr c 0 * (5/100) + jsOr d 0 * (65/100) = 0 →
      (NSFRCalculator.calculate a b c d).nsfr = 0 ∧
      (NSFRCalculator.calculate a b c d).compliant = false) ∧
    (∀ a b c d : Option ℚ,
      (MRELCalculator.calculate a b c d (some 0)).mrelRatio =
        (jsOr a 0 + jsOr b 0 + jsOr c 0 + jsOr d 0) * 100) := by
  refine ⟨?_, ?_, ?_, ?_⟩
  · intro t1
    cases t1 <;> simp [LeverageCalculator.calculate]
  · intro a b c d h
    constructor <;> simp [LCRCalculator.calculate, h]
  · intro a b c d h
    constructor <;> simp [NSFRCalculator.calculate, h]
  · intro a b c d
    simp [MRELCalculator.calculate]

/-- C1 witness: concrete zero-denominator inputs for each of the four
calculators, showing the guarded or substituted — never erroring —
results. -/
theorem calculators_zero_denominator_behavior_witness :
    LeverageCalculator.calculate (some 5) (some 0) = none ∧
    ((LCRCalculator.calculate (some 7) (some 0) (some 0) (some 0)).lcr = 0 ∧
      (LCRCalculator.calculate (some 7) (some 0) (some 0) (some 0)).compliant = false) ∧
    ((NSFRCalculator.calculate (some 7) (some 0) (some 0) (some 0)).nsfr = 0 ∧
      (NSFRCalculator.calculate (some 7) (some 0) (some 0) (some 0)).compliant = false) ∧
    (MRELCalculator.calculate (some 1) (some 1) (some 1) (some 1) (some 0)).mrelRatio = 400 := by
  refine ⟨calculators_zero_denominator_behavior.1 (some 5),
    calculators_zero_denominator_behavior.2.1 (some 7) (some 0) (some 0) (some 0)
      (by norm_num [jsOr]),
    calculators_zero_denominator_behavior.2.2.1 (some 7) (some 0) (some 0) (some 0)
      (by norm_num [jsOr]), ?_⟩
  have h := calculators_zero_denominator_behavior.2.2.2 (some 1) (some 1) (some 1) (some 1)
  rw [h]
  norm_num [jsOr]

/-- Helper for the HQLA cap bookkeeping: `caps_applied` is empty exactly
when neither the 15% Level 2B cap nor the 40% combined Level 2 cap
binds. -/
theorem LCREngine.caps_applied_nil_iff (l1 l2a l2b : ℚ) :
    (LCREngine.adjustHQLA l1 l2a l2b).caps_applied = [] ↔
      (LCREngine.weightedL2B l2b ≤ LCREngine.l2bCap l1 l2a ∧
        LCREngine.weightedL2A l2a + LCREngine.l2bAfterCap l1 l2a l2b ≤
          LCREngine.l2Cap l1) := by
  simp only [LCREngine.adjustHQLA]
  split_ifs with hA hB hB <;> simp_all

/-- C4: the adjusted HQLA of the LCR engine is Level 1 plus 85%-weighted
Level 2A plus 50%-weighted Level 2B, subject to the Basel caps — the
weighted Level 2B holding is at most 15% of the adjusted total it enters
and the combined Level 2 holding is at most 40% of the final adjusted
total; `caps_applied` is empty exactly when the adjusted HQLA equals the
uncapped weighted sum, i.e. every applied (binding) cap is recorded, and
the caps only ever reduce the total. -/
theorem lcr_hqla_caps_spec (l1 l2a l2b : ℚ) :
    ((LCREngine.adjustHQLA l1 l2a l2b).caps_applied = [] ↔
      (LCREngine.adjustHQLA l1 l2a l2b).hqla_adjusted =
        l1 + l2a * (85/100) + l2b * (50/100)) ∧
    (LCREngine.adjustHQLA l1 l2a l2b).hqla_adjusted =
      l1 + (LCREngine.adjustHQLA l1 l2a l2b).l2_after_cap ∧
    (LCREngine.adjustHQLA l1 l2a l2b).l2_after_cap ≤
      (40/100) * (LCREngine.adjustHQLA l1 l2a l2b).hqla_adjusted ∧
    (LCREngine.adjustHQLA l1 l2a l2b).l2b_after_cap ≤
      (15/100) * (l1 + l2a * (85/100) + (LCREngine.adjustHQLA l1 l2a l2b).l2b_after_cap) ∧
    (LCREngine.adjustHQLA l1 l2a l2b).hqla_adjusted ≤
      l1 + l2a * (85/100) + l2b * (50/100) := by
  have hb2c_le_b2 : LCREngine.l2bAfterCap l1 l2a l2b ≤ LCREngine.weightedL2B l2b :=
    min_le_left _ _
  have hb2c_le_cap : LCREngine.l2bAfterCap l1 l2a l2b ≤ LCREngine.l2bCap l1 l2a :=
    min_le_right _ _
  have hl2c_le_l2 : LCREngine.l2AfterCap l1 l2a l2b ≤
      LCREngine.weightedL2A l2a + LCREngine.l2bAfterCap l1 l2a l2b := min_le_left _ _
  have hl2c_le_cap : LCREngine.l2AfterCap l1 l2a l2b ≤ LCREngine.l2Cap l1 :=
    min_le_right _ _
  refine ⟨?_, rfl, ?_, ?_, ?_⟩
  · rw [LCREngine.caps_applied_nil_iff]
    constructor
    · rintro ⟨hA, hB⟩
      have hb2c : LCREngine.l2bAfterCap l1 l2a l2b = LCREngine.weightedL2B l2b :=
        min_eq_left hA
      have hl2c : LCREngine.l2AfterCap l1 l2a l2b =
          LCREngine.weightedL2A l2a + LCREngine.l2bAfterCap l1 l2a l2b := min_eq_left hB
      show l1 + LCREngine.l2AfterCap l1 l2a l2b = l1 + l2a * (85/100) + l2b * (50/100)
      rw [hl2c, hb2c]
      simp only [LCREngine.weightedL2A, LCREngine.weightedL2B]
      ring
    · intro heq
      change l1 + LCREngine.l2AfterCap l1 l2a l2b =
        l1 + l2a * (85/100) + l2b * (50/100) at heq
      constructor
      · by_contra hcon
        push_neg at hcon
        have hb2c : LCREngine.l2bAfterCap l1 l2a l2b = LCREngine.l2bCap l1 l2a :=
          min_eq_right (le_of_lt hcon)
        simp only [LCREngine.weightedL2A, LCREngine.weightedL2B, LCREngine.l2bCap,
          LCREngine.l2bAfterCap] at heq hl2c_le_l2 hcon hb2c
        nlinarith [hl2c_le_l2, hcon, heq, hb2c]
      · by_contra hcon
        push_neg at hcon
        have hl2c : LCREngine.l2AfterCap l1 l2a l2b = LCREngine.l2Cap l1 :=
          min_eq_right (le_of_lt hcon)
        simp only [LCREngine.weightedL2A, LCREngine.weightedL2B, LCREngine.l2Cap,
          LCREngine.l2bCap, LCREngine.l2bAfterCap] at heq hcon hl2c hb2c_le_b2
        nlinarith [heq, hcon, hl2c, hb2c_le_b2]
  · show LCREngine.l2AfterCap l1 l2a l2b ≤
      (40/100) * (l1 + LCREngine.l2AfterCap l1 l2a l2b)
    simp only [LCREngine.l2Cap] at hl2c_le_cap
    linarith
  · show LCREngine.l2bAfterCap l1 l2a l2b ≤
      (15/100) * (l1 + l2a * (85/100) + LCREngine.l2bAfterCap l1 l2a l2b)
    simp only [LCREngine.l2bCap, LCREngine.weightedL2A] at hb2c_le_cap
    linarith
  · show l1 + LCREngine.l2AfterCap l1 l2a l2b ≤ l1 + l2a * (85/100) + l2b * (50/100)
    simp only [LCREngine.weightedL2A, LCREngine.weightedL2B] at hl2c_le_l2 hb2c_le_b2
    linarith
